import Mathlib

/-!
Shallow embedding of `src/script.js` (MEDI-REMINDER client script).

The script is single-threaded and event-driven.  Effects (localStorage,
`window.location`, the Web Audio scheduler, interval timers, the remote
API) are modelled as explicit state passing: each JS function becomes a
Lean function from a state (and an environment carrying the outcomes of
external calls such as `fetch`) to a new state.  Machine integers do not
occur; JS numbers appearing here are small integers (hours, minutes,
days, HTTP statuses) and are modelled as `Nat`/`Int`.  JS `NaN` (produced
by `parseInt` on malformed input) is modelled as `none : Option Int`.
-/

/-! ## JS values (for JSON bodies handled by `apiRequest`) -/

/-- A JavaScript value as relevant to the JSON bodies this script handles.
`vUndef` is `undefined` (e.g. a missing object property). -/
inductive JsValue where
  | vUndef : JsValue
  | vNull : JsValue
  | vBool : Bool → JsValue
  | vNum : Int → JsValue
  | vStr : String → JsValue
  | vArr : List JsValue → JsValue
  | vObj : List (String × JsValue) → JsValue

namespace JsValue

/-- JS truthiness of a value (`if (v)`).  Objects and arrays are always
truthy; `""`, `0`, `null`, `undefined`, `false` are falsy. -/
def truthy : JsValue → Bool
  | vUndef => false
  | vNull => false
  | vBool b => b
  | vNum n => n ≠ 0
  | vStr s => s ≠ ""
  | vArr _ => true
  | vObj _ => true

/-- Property access `v.k`: on an object, the first binding of `k`
(`undefined` when absent); on any non-object, `undefined` (no property
named `detail`/`msg` exists on the primitives this script meets). -/
def getProp (v : JsValue) (k : String) : JsValue :=
  match v with
  | vObj fs => ((fs.find? (fun f => f.1 = k)).map (fun f => f.2)).getD vUndef
  | _ => vUndef

mutual

/-- JS `String(v)` conversion, as used when a value is interpolated into
an error message or stringified by `Array.prototype.join`. -/
def toDisplayString : JsValue → String
  | vUndef => "undefined"
  | vNull => "null"
  | vBool b => if b then "true" else "false"
  | vNum n => toString n
  | vStr s => s
  | vArr xs => String.intercalate "," (joinParts xs)
  | vObj _ => "[object Object]"

/-- Element strings for `Array.prototype.join`: elements are converted
with `String`, except `null`/`undefined` which become the empty string. -/
def joinParts : List JsValue → List String
  | [] => []
  | vNull :: vs => "" :: joinParts vs
  | vUndef :: vs => "" :: joinParts vs
  | v :: vs => toDisplayString v :: joinParts vs

end

/-- `Array.prototype.join(sep)`. -/
def jsJoin (sep : String) (xs : List JsValue) : String :=
  String.intercalate sep (joinParts xs)

end JsValue

/-! ## API client (`apiRequest`, script.js lines 12–54) -/

/-- The observable part of a `fetch` `Response`: its HTTP status and the
result of parsing its body as JSON (`none` = the body is not valid JSON,
so `response.json()` rejects). -/
structure JsResponse where
  status : Nat
  body : Option JsValue

/-- `response.ok`: status in the inclusive range 200–299. -/
def JsResponse.ok (r : JsResponse) : Bool :=
  decide (200 ≤ r.status) && decide (r.status ≤ 299)

/-- The error message built by `apiRequest` for a non-ok response:
starts from `Request failed with status N`; if the body parses to a
truthy value with a truthy `detail` property, the message becomes the
joined `msg` fields when `detail` is an array (`d.msg || d` per element,
joined with a comma and space), else the `detail` value itself. -/
def apiErrorMessage (status : Nat) (body : Option JsValue) : String :=
  let fallback := "Request failed with status " ++ toString status
  match body with
  | none => fallback
  | some dat =>
    if dat.truthy && (dat.getProp "detail").truthy then
      match dat.getProp "detail" with
      | JsValue.vArr xs =>
        JsValue.jsJoin ", " (xs.map fun d =>
          if (d.getProp "msg").truthy then d.getProp "msg" else d)
      | other => other.toDisplayString
    else fallback

/-- `apiRequest`, reduced to its response handling (token attachment and
request construction do not affect the returned value): non-ok responses
throw an `Error` with the extracted message; ok 204 responses return
`null`; other ok responses return the parsed JSON body, rethrowing the
body parse failure when the body is not JSON. -/
def apiRequest (resp : JsResponse) : Except String (Option JsValue) :=
  if ¬ resp.ok then
    Except.error (apiErrorMessage resp.status resp.body)
  else if resp.status = 204 then
    Except.ok none
  else
    match resp.body with
    | some v => Except.ok (some v)
    | none => Except.error "SyntaxError: body is not JSON"

/-! ## Time formatting (`formatTime`, script.js lines 133–141)

JS strings are modelled as `List Char`; JS numbers flowing out of
`parseInt` are `Option Int`, with `none` standing for `NaN`. -/

/-- Decimal digits of a natural number, most significant first
(fuel-indexed so that it reduces in the kernel). -/
def natCharsAux : Nat → Nat → List Char → List Char
  | 0, _, acc => acc
  | fuel + 1, n, acc =>
    if n < 10 then Char.ofNat (48 + n) :: acc
    else natCharsAux fuel (n / 10) (Char.ofNat (48 + n % 10) :: acc)

/-- JS `String(n)` for an integer-valued number, as a character list. -/
def intChars (i : Int) : List Char :=
  if i < 0 then '-' :: natCharsAux (i.natAbs + 1) i.natAbs []
  else natCharsAux (i.toNat + 1) i.toNat []

/-- JS `String(n)` for a number that may be `NaN` (template-literal
interpolation of the parsed minute). -/
def jsNumChars : Option Int → List Char
  | none => ['N', 'a', 'N']
  | some i => intChars i

/-- Value of a leading run of decimal digits; `none` when there is no
leading digit (so `parseInt` yields `NaN`). -/
def digitsVal (s : List Char) : Option Nat :=
  let ds := s.takeWhile fun c => c.isDigit
  if ds = [] then none
  else some (ds.foldl (fun a c => a * 10 + (c.toNat - 48)) 0)

/-- JS `parseInt(s, 10)`: skip leading whitespace, accept an optional
sign, read the longest prefix of decimal digits; `NaN` (`none`) when no
digit is found. -/
def parseIntChars (s : List Char) : Option Int :=
  let t := s.dropWhile fun c => c = ' ' || c = '\t' || c = '\n' || c = '\r'
  match t with
  | '-' :: rest => (digitsVal rest).map fun n => -(n : Int)
  | '+' :: rest => (digitsVal rest).map fun n => (n : Int)
  | _ => (digitsVal t).map fun n => (n : Int)

/-- `parseInt` applied to a destructured element that may be `undefined`
(`parseInt(undefined, 10)` is `NaN`). -/
def jsParseInt : Option (List Char) → Option Int
  | none => none
  | some s => parseIntChars s

/-- JS `String.prototype.split(':')` on a character list. -/
def splitColon : List Char → List (List Char)
  | [] => [[]]
  | c :: rest =>
    match splitColon rest with
    | [] => [[]]
    | p :: ps => if c = ':' then [] :: p :: ps else (c :: p) :: ps

/-- JS `h >= 12` where `h` may be `NaN` (any comparison with `NaN` is
false). -/
def jsGe12 : Option Int → Bool
  | none => false
  | some v => decide (12 ≤ v)

/-- JS `m < 10` where `m` may be `NaN`. -/
def jsLt10 : Option Int → Bool
  | none => false
  | some v => decide (v < 10)

/-- JS `h % 12` where `h` may be `NaN` (`%` is the truncated remainder;
`NaN % 12` is `NaN`). -/
def jsMod12 : Option Int → Option Int
  | none => none
  | some v => some (Int.tmod v 12)

/-- JS `x || 12` on a number that may be `NaN`: `NaN` and `0` are falsy,
every other number is kept. -/
def jsOr12 : Option Int → Int
  | none => 12
  | some v => if v = 0 then 12 else v

/-- `formatTime(timeStr)` (script.js 133–141): empty input is returned
unchanged (falsy guard); otherwise the string is split on `:`, the first
two parts are parsed with `parseInt`, and the result is rendered as
`h12:minute ampm` where `h12 = h % 12 || 12`, the minute is `0`-padded
below 10, and the suffix is `PM` exactly when `h >= 12`. -/
def formatTime (s : List Char) : List Char :=
  if s = [] then []
  else
    let parts := splitColon s
    let h := jsParseInt (parts.get? 0)
    let m := jsParseInt (parts.get? 1)
    let ampm := if jsGe12 h then ['P', 'M'] else ['A', 'M']
    let h12 := jsOr12 (jsMod12 h)
    let minuteDisp := if jsLt10 m then '0' :: jsNumChars m else jsNumChars m
    intChars h12 ++ ':' :: (minuteDisp ++ ' ' :: ampm)

/-- JS `String(n)` for a natural number. -/
def natChars (n : Nat) : List Char := natCharsAux (n + 1) n []

/-- Two-digit zero-padded decimal rendering of `n < 100` (the canonical
`HH` / `MM` components of a time string). -/
def pad2Chars (n : Nat) : List Char := if n < 10 then '0' :: natChars n else natChars n

/-- The canonical `"HH:MM"` input string for hour `h` and minute `m`. -/
def hhmmChars (h m : Nat) : List Char := pad2Chars h ++ ':' :: pad2Chars m

/-- The 12-hour clock hour described by the spec: hours `0` and `12`
render as `12`, otherwise `h mod 12`. -/
def h12val (h : Nat) : Nat := if h % 12 = 0 then 12 else h % 12

/-- The 12-hour display the spec promises for a valid `"HH:MM"` input:
hour `h12val h`, zero-padded minute, and `AM` for hours 0–11 / `PM` for
hours 12–23.  (Stated from the spec's words, to be compared with
`formatTime`.) -/
def twelveHourDisplay (h m : Nat) : List Char :=
  natChars (h12val h) ++ ':' ::
    (pad2Chars m ++ ' ' :: (if h < 12 then ['A', 'M'] else ['P', 'M']))

/-- C7: for every input string `"HH:MM"` with hour in [0,23] and minute in
[0,59], `formatTime` returns exactly the 12-hour display: hour part
`h12val h ∈ [1,12]` (hours 0 and 12 both render as 12), minute part
zero-padded to two digits, suffix `AM` for hours 0–11 and `PM` for hours
12–23; in particular `"00:05" ↦ "12:05 AM"`, `"13:00" ↦ "1:00 PM"` and
`"23:59" ↦ "11:59 PM"`. -/
theorem c7_formatTime_twelve_hour :
    (∀ h, h < 24 → ∀ m, m < 60 →
      formatTime (hhmmChars h m) = twelveHourDisplay h m ∧
      1 ≤ h12val h ∧ h12val h ≤ 12 ∧ (pad2Chars m).length = 2) ∧
    h12val 0 = 12 ∧ h12val 12 = 12 ∧
    formatTime (hhmmChars 0 5) = ['1', '2', ':', '0', '5', ' ', 'A', 'M'] ∧
    formatTime (hhmmChars 13 0) = ['1', ':', '0', '0', ' ', 'P', 'M'] ∧
    formatTime (hhmmChars 23 59) = ['1', '1', ':', '5', '9', ' ', 'P', 'M'] := by
  decide

/-- Witness for C7 at the concrete input `"13:00"`. -/
theorem c7_formatTime_twelve_hour_witness :
    formatTime (hhmmChars 13 0) = twelveHourDisplay 13 0 ∧
    1 ≤ h12val 13 ∧ h12val 13 ≤ 12 ∧ (pad2Chars 0).length = 2 :=
  c7_formatTime_twelve_hour.1 13 (by decide) 0 (by decide)

/-- C9: `formatTime` is total over all input strings: it is a Lean
function (no exception path exists in the embedding), the empty string
maps to the empty string, and every non-empty string — malformed ones
included — maps to a display of shape `hour:minute AM/PM`; e.g. the
malformed `"ab:cd"` degrades to `"12:NaN AM"`. -/
theorem c9_formatTime_total :
    (∀ s : List Char, (s = [] → formatTime s = []) ∧
      (s ≠ [] → ∃ hp mp ap, formatTime s = hp ++ ':' :: (mp ++ ' ' :: ap) ∧
        (ap = ['A', 'M'] ∨ ap = ['P', 'M']))) ∧
    formatTime ['a', 'b', ':', 'c', 'd'] =
      ['1', '2', ':', 'N', 'a', 'N', ' ', 'A', 'M'] := by
  refine ⟨fun s => ⟨fun hs => by simp [formatTime, hs], fun hs => ?_⟩, by decide⟩
  simp only [formatTime, if_neg hs]
  refine ⟨_, _, _, rfl, ?_⟩
  split
  · right; rfl
  · left; rfl

/-- Witness for C9 at the concrete non-empty input `"08:30"`. -/
theorem c9_formatTime_total_witness :
    ∃ hp mp ap, formatTime ['0', '8', ':', '3', '0'] =
      hp ++ ':' :: (mp ++ ' ' :: ap) ∧ (ap = ['A', 'M'] ∨ ap = ['P', 'M']) :=
  (c9_formatTime_total.1 ['0', '8', ':', '3', '0']).2 (by decide)

/-- The error body `{"detail":[{"msg":x},{"msg":y}]}` from the claim. -/
def detailMsgBody (x y : String) : JsValue :=
  JsValue.vObj [("detail", JsValue.vArr
    [JsValue.vObj [("msg", JsValue.vStr x)],
     JsValue.vObj [("msg", JsValue.vStr y)]])]

/-- C3: for every API request, an ok 204 response yields `null`; a non-ok
response with JSON body `{"detail":[{"msg":x},{"msg":y}]}` (non-empty
messages) fails with message `x, y`; a non-ok response with a string
`detail` uses it verbatim; a non-ok response whose body is not JSON fails
with `Request failed with status N`; any other ok response returns the
parsed JSON body. -/
theorem c3_apiRequest_contract :
    (∀ body, apiRequest ⟨204, body⟩ = Except.ok none) ∧
    (∀ status x y, ¬ (200 ≤ status ∧ status ≤ 299) → x ≠ "" → y ≠ "" →
      apiRequest ⟨status, some (detailMsgBody x y)⟩ =
        Except.error (x ++ ", " ++ y)) ∧
    (∀ status d, ¬ (200 ≤ status ∧ status ≤ 299) → d ≠ "" →
      apiRequest ⟨status, some (JsValue.vObj [("detail", JsValue.vStr d)])⟩ =
        Except.error d) ∧
    (∀ status, ¬ (200 ≤ status ∧ status ≤ 299) →
      apiRequest ⟨status, none⟩ =
        Except.error ("Request failed with status " ++ toString status)) ∧
    (∀ status v, 200 ≤ status → status ≤ 299 → status ≠ 204 →
      apiRequest ⟨status, some v⟩ = Except.ok (some v)) := by
  refine ⟨fun body => by simp [apiRequest, JsResponse.ok], ?_, ?_, ?_, ?_⟩
  · intro status x y hok hx hy
    have hok' : (JsResponse.ok ⟨status, some (detailMsgBody x y)⟩) = false := by
      simp [JsResponse.ok]; omega
    simp only [apiRequest, hok']
    simp [apiErrorMessage, detailMsgBody, JsValue.getProp,
      JsValue.truthy, JsValue.jsJoin, JsValue.joinParts, hx, hy,
      JsValue.toDisplayString, String.intercalate, String.intercalate.go]
  · intro status d hok hd
    have hok' : (JsResponse.ok ⟨status, some (JsValue.vObj [("detail", JsValue.vStr d)])⟩) = false := by
      simp [JsResponse.ok]; omega
    simp [apiRequest, hok', apiErrorMessage, JsValue.getProp,
      JsValue.truthy, hd, JsValue.toDisplayString]
  · intro status hok
    have hok' : (JsResponse.ok ⟨status, none⟩) = false := by
      simp [JsResponse.ok]; omega
    simp [apiRequest, hok', apiErrorMessage]
  · intro status v h1 h2 h3
    have hok' : (JsResponse.ok ⟨status, some v⟩) = true := by
      simp [JsResponse.ok]; omega
    simp [apiRequest, hok', h3]

/-- Witness for C3 at concrete responses (status 422 with a structured
detail body, status 500 with a non-JSON body, ok statuses 204 and 200). -/
theorem c3_apiRequest_contract_witness :
    apiRequest ⟨204, none⟩ = Except.ok none ∧
    apiRequest ⟨422, some (detailMsgBody "x" "y")⟩ =
      Except.error ("x" ++ ", " ++ "y") ∧
    apiRequest ⟨500, none⟩ =
      Except.error ("Request failed with status " ++ toString 500) ∧
    apiRequest ⟨200, some JsValue.vNull⟩ = Except.ok (some JsValue.vNull) :=
  ⟨c3_apiRequest_contract.1 none,
   c3_apiRequest_contract.2.1 422 "x" "y" (by omega) (by simp) (by simp),
   c3_apiRequest_contract.2.2.2.1 500 (by omega),
   c3_apiRequest_contract.2.2.2.2 200 JsValue.vNull (by omega) (by omega) (by omega)⟩

/-! ## Alarm workflow state (script.js lines 295–426)

Module-level mutables (`audioContext`, `alarmInterval`, `isAlarmPlaying`),
`localStorage`, and `window.location` become fields of one `AppState`.
Outcomes of external calls (`new AudioContext()`, `audioContext.currentTime`,
`setInterval` handles, the remote API) are supplied by an `Env`. -/

/-- The state of the shared `AudioContext` (`suspended` happens under
autoplay policies; the script never closes the context). -/
inductive CtxState where
  | suspended : CtxState
  | running : CtxState
deriving DecidableEq, Repr

/-- One tone burst produced by `playBeep`: an oscillator at `freq` Hz
started at `start` and stopped `duration` seconds later (the gain
envelope does not affect which tones exist). -/
structure Tone where
  freq : Nat
  start : Rat
  duration : Rat
deriving DecidableEq, Repr

/-- An alarm record as fetched from `/alarms` and stored under the
`currentAlarm` key: identifier (absent models JS `null`/`undefined`),
scheduled time `"HH:MM"`, and acknowledgment status (absent models a
missing/`null` status field; statuses seen are `"upcoming"`, `"taken"`,
`"snoozed"`). -/
structure Alarm where
  id : Option Int
  scheduled_time : String
  status : Option String
deriving DecidableEq, Repr

/-- The mutable state the alarm workflow touches.  `currentAlarm` is the
`localStorage` slot: `none` = key absent, `some none` = the stored string
does not parse to a truthy object, `some (some a)` = it parses to alarm
`a`.  `activeIntervals` is the browser's set of live interval timers;
`alarmIntervalVar` is the module variable `alarmInterval` (stale after
`clearInterval`, which cancels the registration but does not null the
variable). -/
structure AppState where
  token : Option String
  currentAlarm : Option (Option Alarm)
  location : String
  isAlarmPlaying : Bool
  audioCtx : Option CtxState
  alarmIntervalVar : Option Nat
  activeIntervals : Finset Nat
  scheduled : List Tone
  putCount : Nat
deriving DecidableEq

/-- Outcomes of the calls that leave the script: the state of a freshly
constructed `AudioContext`, `audioContext.currentTime`, the handle a
`setInterval` call returns, the `PUT /alarms/{id}` outcome, the current
wall-clock hour/minute, and the `GET /alarms` outcome (`ok none` = the
response body is JSON but not an array). -/
structure Env where
  newCtxState : CtxState
  now : Rat
  freshId : Nat
  put : Int → String → Except String Alarm
  nowH : Nat
  nowM : Nat
  alarms : Except String (Option (List Alarm))

/-- Truthiness of `getAccessToken()` (`null` or the empty string are
falsy). -/
def tokenPresent : Option String → Bool
  | none => false
  | some s => s ≠ ""

/-- `initAudioContext` (script.js 299–303): create the shared context on
first use. -/
def initAudioContext (env : Env) (st : AppState) : AppState :=
  match st.audioCtx with
  | none => { st with audioCtx := some env.newCtxState }
  | some _ => st

/-- The six tone bursts one `scheduleBeeps` pass starts at time `now`:
three paired 880 Hz + 1047 Hz beeps at offsets 0, 0.3 and 0.6 seconds,
durations 0.2/0.2/0.4 seconds. -/
def beepsAt (now : Rat) : List Tone :=
  [⟨880, now, 0.2⟩, ⟨1047, now, 0.2⟩,
   ⟨880, now + 0.3, 0.2⟩, ⟨1047, now + 0.3, 0.2⟩,
   ⟨880, now + 0.6, 0.4⟩, ⟨1047, now + 0.6, 0.4⟩]

/-- `scheduleBeeps` (script.js 338–350): guarded by `isAlarmPlaying`;
when playing, starts the six oscillators of one beep pattern. -/
def scheduleBeeps (now : Rat) (st : AppState) : AppState :=
  if st.isAlarmPlaying = false then st
  else { st with scheduled := st.scheduled ++ beepsAt now }

/-- `playAlarmSound` (script.js 305–359): lazily create the context,
resume it if suspended, then — unless an alarm is already playing — set
the playing flag, schedule the first beep pattern, and register the
repeating 3-second interval. -/
def playAlarmSound (env : Env) (st : AppState) : AppState :=
  let st1 := initAudioContext env st
  let st2 :=
    if st1.audioCtx = some CtxState.suspended then
      { st1 with audioCtx := some CtxState.running }
    else st1
  if st2.isAlarmPlaying then st2
  else
    let st3 := { st2 with isAlarmPlaying := true }
    let st4 := scheduleBeeps env.now st3
    { st4 with alarmIntervalVar := some env.freshId,
               activeIntervals := insert env.freshId st4.activeIntervals }

/-- The body of the interval registered by `playAlarmSound`
(script.js 356–358): `if (isAlarmPlaying) scheduleBeeps()`. -/
def intervalCallback (now : Rat) (st : AppState) : AppState :=
  if st.isAlarmPlaying then scheduleBeeps now st else st

/-- A sequence of executions of the interval callback at the given
`currentTime`s (covers both live-interval firings and callbacks already
queued when the interval is cleared). -/
def runCallbacks (times : List Rat) (st : AppState) : AppState :=
  times.foldl (fun s t => intervalCallback t s) st

/-- The shared prefix of both stop operations (script.js 387–388 and
395–396): clear the playing flag and cancel the interval registration
named by the `alarmInterval` variable (the variable itself is not
nulled). -/
def stopAudio (st : AppState) : AppState :=
  { st with isAlarmPlaying := false,
            activeIntervals :=
              match st.alarmIntervalVar with
              | some h => st.activeIntervals.erase h
              | none => st.activeIntervals }

/-- `updateCurrentAlarmStatus` (script.js 361–384): read and parse the
stored alarm; bail out when the slot is empty, the parse fails or yields
a falsy value, the record has no id, or no token is present; otherwise
issue `PUT /alarms/{id} {status}`, store the server's updated record on
success, and log-and-swallow the error on failure (no retry, no
rollback). -/
def updateCurrentAlarmStatus (env : Env) (newStatus : String) (st : AppState) : AppState :=
  match st.currentAlarm with
  | none => st
  | some none => st
  | some (some alarm) =>
    match alarm.id with
    | none => st
    | some i =>
      if tokenPresent st.token = false then st
      else
        match env.put i newStatus with
        | Except.ok updated =>
          { st with currentAlarm := some (some updated), putCount := st.putCount + 1 }
        | Except.error _ => { st with putCount := st.putCount + 1 }

/-- `stopAlarmAndRedirect` (script.js 386–392): the "take" exit — stop
the audio, mark the stored alarm `"taken"`, then navigate to the
dashboard. -/
def stopAlarmAndRedirect (env : Env) (st : AppState) : AppState :=
  let st1 := updateCurrentAlarmStatus env "taken" (stopAudio st)
  { st1 with location := "dashboard.html" }

/-- `stopAlarmOnly` (script.js 394–398): the "snooze" exit — stop the
audio and mark the stored alarm `"snoozed"`; no navigation. -/
def stopAlarmOnly (env : Env) (st : AppState) : AppState :=
  updateCurrentAlarmStatus env "snoozed" (stopAudio st)

/-- `String(n).padStart(2, '0')` for the current hour/minute. -/
def pad2 (n : Nat) : String :=
  if (toString n).length < 2 then "0" ++ toString n else toString n

/-- The current wall-clock minute in `"HH:MM"` form (script.js 405). -/
def currentHHMM (env : Env) : String := pad2 env.nowH ++ ":" ++ pad2 env.nowM

/-- Truthiness of the `status` field (`!a.status`). -/
def statusFalsy : Option String → Bool
  | none => true
  | some s => s = ""

/-- The `find` predicate of `checkMedicationAlarms` (script.js 411–414):
the alarm's scheduled time equals the current `"HH:MM"` minute and its
status is falsy or `"upcoming"`. -/
def isDueAlarm (hhmm : String) (a : Alarm) : Bool :=
  decide (a.scheduled_time = hhmm) &&
    (statusFalsy a.status || decide (a.status = some "upcoming"))

/-- `checkMedicationAlarms` (script.js 401–423): one poll.  Without a
token it does nothing; a failed or non-array `/alarms` fetch is logged
and ignored; otherwise the first due alarm (if any) is persisted to the
`currentAlarm` slot and the page navigates to the alert view. -/
def checkMedicationAlarms (env : Env) (st : AppState) : AppState :=
  if tokenPresent st.token = false then st
  else
    match env.alarms with
    | Except.error _ => st
    | Except.ok none => st
    | Except.ok (some alarms) =>
      match alarms.find? (isDueAlarm (currentHHMM env)) with
      | none => st
      | some a =>
        { st with currentAlarm := some (some a), location := "alarm.html" }

/-- `n` successive polls of `checkMedicationAlarms` under the same
environment (the 10-second interval firing within one wall-clock
minute). -/
def pollIter (env : Env) (st : AppState) : Nat → AppState
  | 0 => st
  | n + 1 => checkMedicationAlarms env (pollIter env st n)

/-! ## Helper lemmas on the alarm workflow -/

/-- `updateCurrentAlarmStatus` only ever touches the `currentAlarm` slot
and the request counter. -/
theorem updateCurrentAlarmStatus_shape (env : Env) (ns : String) (st : AppState) :
    ∃ ca pc, updateCurrentAlarmStatus env ns st =
      { st with currentAlarm := ca, putCount := pc } := by
  unfold updateCurrentAlarmStatus
  repeat' split
  all_goals exact ⟨_, _, rfl⟩

/-- Fields other than `currentAlarm`/`putCount` are preserved by
`updateCurrentAlarmStatus`. -/
theorem updateCurrentAlarmStatus_preserves (env : Env) (ns : String) (st : AppState) :
    (updateCurrentAlarmStatus env ns st).isAlarmPlaying = st.isAlarmPlaying ∧
    (updateCurrentAlarmStatus env ns st).location = st.location ∧
    (updateCurrentAlarmStatus env ns st).activeIntervals = st.activeIntervals ∧
    (updateCurrentAlarmStatus env ns st).alarmIntervalVar = st.alarmIntervalVar ∧
    (updateCurrentAlarmStatus env ns st).scheduled = st.scheduled ∧
    (updateCurrentAlarmStatus env ns st).token = st.token := by
  obtain ⟨ca, pc, h⟩ := updateCurrentAlarmStatus_shape env ns st
  rw [h]
  exact ⟨rfl, rfl, rfl, rfl, rfl, rfl⟩

/-- A queued interval callback does nothing once the playing flag is
down. -/
theorem intervalCallback_not_playing (t : Rat) (st : AppState)
    (h : st.isAlarmPlaying = false) : intervalCallback t st = st := by
  simp [intervalCallback, h]

/-- Any sequence of interval callbacks does nothing once the playing
flag is down. -/
theorem runCallbacks_not_playing (ts : List Rat) (st : AppState)
    (h : st.isAlarmPlaying = false) : runCallbacks ts st = st := by
  induction ts with
  | nil => rfl
  | cons t ts ih =>
    show runCallbacks ts (intervalCallback t st) = st
    rw [intervalCallback_not_playing t st h, ih]

/-! ## C4: re-entrant `playAlarmSound` -/

/-- A concrete environment for witness/counterexample scenarios: the
backend is unreachable and a fresh audio context starts running. -/
def baseEnv : Env :=
  { newCtxState := CtxState.running, now := 2, freshId := 5,
    put := fun _ _ => Except.error "offline",
    nowH := 8, nowM := 0, alarms := Except.error "offline" }

/-- A ringing state whose shared audio context has been suspended by the
browser (e.g. an autoplay policy) while the flag is still up. -/
def c4State : AppState :=
  { token := some "tok", currentAlarm := none, location := "alarm.html",
    isAlarmPlaying := true, audioCtx := some CtxState.suspended,
    alarmIntervalVar := some 1, activeIntervals := {1},
    scheduled := [⟨880, 0, 0.2⟩], putCount := 0 }

/-- Counterexample to C4 as stated: in a state with the playing flag set
but the audio context suspended, a second `playAlarmSound` call is not a
no-op — it resumes the context (the flag guard sits after
`initAudioContext()` and the `resume()` call). -/
theorem c4_reentrant_start_counterexample :
    c4State.isAlarmPlaying = true ∧ playAlarmSound baseEnv c4State ≠ c4State := by
  constructor
  · rfl
  · intro h
    have h2 := congrArg AppState.audioCtx h
    revert h2
    decide

/-- C4 (amended): starting the audio alerter while the alarm-playing
flag is set leaves the flag, the interval registration, the scheduled
tones and all other state unchanged and schedules no new tones — except
that the audio context is lazily created and/or resumed, ending up in
the running state. -/
theorem c4_reentrant_start_amended (env : Env) (st : AppState)
    (h : st.isAlarmPlaying = true) :
    playAlarmSound env st = { st with audioCtx := some CtxState.running } := by
  unfold playAlarmSound initAudioContext
  rcases hc : st.audioCtx with _ | c
  · cases hn : env.newCtxState <;> simp [h, hc, hn]
  · cases c
    · simp [h, hc]
    · simp [h, hc]
      rw [← hc, ← h]

/-- Witness for C4 (amended) at the concrete suspended state. -/
theorem c4_reentrant_start_amended_witness :
    playAlarmSound baseEnv c4State = { c4State with audioCtx := some CtxState.running } :=
  c4_reentrant_start_amended baseEnv c4State rfl

/-! ## C5: stopping cancels the repeating tone schedule -/

/-- C5: after either stop operation ("take" = `stopAlarmAndRedirect` or
"snooze" = `stopAlarmOnly`), the alarm-playing flag is down, the
interval registration named by the `alarmInterval` variable is
cancelled, and every subsequently executed scheduled beat (queued or
not) observes the cleared flag and emits nothing: no tone is ever added
until a new start call. -/
theorem c5_stop_cancels_schedule (env : Env) (st : AppState) :
    ((stopAlarmOnly env st).isAlarmPlaying = false ∧
     (stopAlarmAndRedirect env st).isAlarmPlaying = false) ∧
    (∀ h, st.alarmIntervalVar = some h →
      h ∉ (stopAlarmOnly env st).activeIntervals ∧
      h ∉ (stopAlarmAndRedirect env st).activeIntervals) ∧
    (∀ ts, runCallbacks ts (stopAlarmOnly env st) = stopAlarmOnly env st ∧
      runCallbacks ts (stopAlarmAndRedirect env st) = stopAlarmAndRedirect env st) := by
  have hsnFlag : (stopAlarmOnly env st).isAlarmPlaying = false := by
    unfold stopAlarmOnly
    rw [(updateCurrentAlarmStatus_preserves env "snoozed" (stopAudio st)).1]
    rfl
  have htkFlag : (stopAlarmAndRedirect env st).isAlarmPlaying = false := by
    unfold stopAlarmAndRedirect
    show (updateCurrentAlarmStatus env "taken" (stopAudio st)).isAlarmPlaying = false
    rw [(updateCurrentAlarmStatus_preserves env "taken" (stopAudio st)).1]
    rfl
  refine ⟨⟨hsnFlag, htkFlag⟩, fun h hvar => ?_, fun ts =>
    ⟨runCallbacks_not_playing ts _ hsnFlag, runCallbacks_not_playing ts _ htkFlag⟩⟩
  have hstop : (stopAudio st).activeIntervals = st.activeIntervals.erase h := by
    unfold stopAudio
    rw [hvar]
  constructor
  · unfold stopAlarmOnly
    rw [(updateCurrentAlarmStatus_preserves env "snoozed" (stopAudio st)).2.2.1, hstop]
    exact Finset.not_mem_erase h st.activeIntervals
  · unfold stopAlarmAndRedirect
    show h ∉ (updateCurrentAlarmStatus env "taken" (stopAudio st)).activeIntervals
    rw [(updateCurrentAlarmStatus_preserves env "taken" (stopAudio st)).2.2.1, hstop]
    exact Finset.not_mem_erase h st.activeIntervals

/-- Witness for C5 at a concrete ringing state with a registered
interval handle 7 and two pending callback executions. -/
theorem c5_stop_cancels_schedule_witness :
    (7 : Nat) ∉ (stopAlarmOnly baseEnv
      { token := some "tok", currentAlarm := none, location := "alarm.html",
        isAlarmPlaying := true, audioCtx := some CtxState.running,
        alarmIntervalVar := some 7, activeIntervals := {7},
        scheduled := [], putCount := 0 }).activeIntervals ∧
    runCallbacks [3, 6] (stopAlarmOnly baseEnv
      { token := some "tok", currentAlarm := none, location := "alarm.html",
        isAlarmPlaying := true, audioCtx := some CtxState.running,
        alarmIntervalVar := some 7, activeIntervals := {7},
        scheduled := [], putCount := 0 }) =
      stopAlarmOnly baseEnv
      { token := some "tok", currentAlarm := none, location := "alarm.html",
        isAlarmPlaying := true, audioCtx := some CtxState.running,
        alarmIntervalVar := some 7, activeIntervals := {7},
        scheduled := [], putCount := 0 } :=
  ⟨((c5_stop_cancels_schedule baseEnv _).2.1 7 rfl).1,
   ((c5_stop_cancels_schedule baseEnv _).2.2 [3, 6]).1⟩

/-! ## C2 / C6: the acknowledge operations -/

/-- When the guard chain passes and the `PUT` succeeds, the server's
updated record replaces the stored alarm and exactly one request is
counted. -/
theorem updateCurrentAlarmStatus_ok (env : Env) (ns : String) (st : AppState)
    (alarm upd : Alarm) (i : Int)
    (hca : st.currentAlarm = some (some alarm)) (hid : alarm.id = some i)
    (htok : tokenPresent st.token = true)
    (hput : env.put i ns = Except.ok upd) :
    updateCurrentAlarmStatus env ns st =
      { st with currentAlarm := some (some upd), putCount := st.putCount + 1 } := by
  unfold updateCurrentAlarmStatus
  simp [hca, hid, htok, hput]

/-- When the guard chain passes and the `PUT` fails, the error is
swallowed: only the request counter changes. -/
theorem updateCurrentAlarmStatus_fail (env : Env) (ns : String) (st : AppState)
    (alarm : Alarm) (i : Int) (e : String)
    (hca : st.currentAlarm = some (some alarm)) (hid : alarm.id = some i)
    (htok : tokenPresent st.token = true)
    (hput : env.put i ns = Except.error e) :
    updateCurrentAlarmStatus env ns st = { st with putCount := st.putCount + 1 } := by
  unfold updateCurrentAlarmStatus
  simp [hca, hid, htok, hput]

/-- When no alarm is stored, the stored record is unusable or lacks an
id, or no token is present, the status update does nothing at all. -/
theorem updateCurrentAlarmStatus_skipped (env : Env) (ns : String) (st : AppState)
    (h : st.currentAlarm = none ∨ st.currentAlarm = some none ∨
      (∃ alarm, st.currentAlarm = some (some alarm) ∧ alarm.id = none) ∨
      tokenPresent st.token = false) :
    updateCurrentAlarmStatus env ns st = st := by
  unfold updateCurrentAlarmStatus
  rcases h with h | h | ⟨alarm, h, hid⟩ | h
  · simp [h]
  · simp [h]
  · simp [h, hid]
  · rcases hca : st.currentAlarm with _ | ca
    · rfl
    · rcases ca with _ | alarm
      · rfl
      · rcases hid : alarm.id with _ | i
        · simp [hca, hid]
        · simp [hca, hid, h]

/-- A ringing state with nothing stored under `currentAlarm` (e.g. the
alert page opened directly, or the slot cleared elsewhere). -/
def c2EmptyState : AppState :=
  { token := none, currentAlarm := none, location := "alarm.html",
    isAlarmPlaying := true, audioCtx := some CtxState.running,
    alarmIntervalVar := some 1, activeIntervals := {1},
    scheduled := [], putCount := 0 }

/-- Counterexample to C2 as stated: with no alarm stored locally, the
"take" operation is not a no-op — it still clears the playing flag and
navigates to the dashboard (only the status update is skipped). -/
theorem c2_acknowledge_noop_counterexample :
    c2EmptyState.currentAlarm = none ∧
    stopAlarmAndRedirect baseEnv c2EmptyState ≠ c2EmptyState := by
  refine ⟨rfl, fun h => ?_⟩
  have h2 := congrArg AppState.location h
  revert h2
  decide

/-- C2 (amended): "take" stores the server's record with status
`"taken"` and navigates to the dashboard; "snooze" stores the record
with status `"snoozed"` and does not navigate.  When no alarm is stored,
the stored record is unusable or lacks an identifier, or no session
token exists, the *status update* is a no-op (storage untouched, no
request issued) — but both operations still stop the audio, and "take"
still navigates to the dashboard. -/
theorem c2_acknowledge_amended (env : Env) (st : AppState) :
    (∀ alarm i, st.currentAlarm = some (some alarm) → alarm.id = some i →
      tokenPresent st.token = true →
      (env.put i "taken" = Except.ok { alarm with status := some "taken" } →
        (stopAlarmAndRedirect env st).currentAlarm =
          some (some { alarm with status := some "taken" }) ∧
        (stopAlarmAndRedirect env st).location = "dashboard.html") ∧
      (env.put i "snoozed" = Except.ok { alarm with status := some "snoozed" } →
        (stopAlarmOnly env st).currentAlarm =
          some (some { alarm with status := some "snoozed" }) ∧
        (stopAlarmOnly env st).location = st.location)) ∧
    ((st.currentAlarm = none ∨ st.currentAlarm = some none ∨
      (∃ alarm, st.currentAlarm = some (some alarm) ∧ alarm.id = none) ∨
      tokenPresent st.token = false) →
      (stopAlarmOnly env st).currentAlarm = st.currentAlarm ∧
      (stopAlarmOnly env st).putCount = st.putCount ∧
      (stopAlarmOnly env st).location = st.location ∧
      (stopAlarmOnly env st).isAlarmPlaying = false ∧
      (stopAlarmAndRedirect env st).currentAlarm = st.currentAlarm ∧
      (stopAlarmAndRedirect env st).putCount = st.putCount ∧
      (stopAlarmAndRedirect env st).location = "dashboard.html" ∧
      (stopAlarmAndRedirect env st).isAlarmPlaying = false) := by
  constructor
  · intro alarm i hca hid htok
    have hca' : (stopAudio st).currentAlarm = some (some alarm) := hca
    have htok' : tokenPresent (stopAudio st).token = true := htok
    constructor
    · intro hput
      unfold stopAlarmAndRedirect
      rw [updateCurrentAlarmStatus_ok env "taken" (stopAudio st) alarm
        { alarm with status := some "taken" } i hca' hid htok' hput]
      exact ⟨rfl, rfl⟩
    · intro hput
      unfold stopAlarmOnly
      rw [updateCurrentAlarmStatus_ok env "snoozed" (stopAudio st) alarm
        { alarm with status := some "snoozed" } i hca' hid htok' hput]
      exact ⟨rfl, rfl⟩
  · intro hskip
    have hskip' : (stopAudio st).currentAlarm = none ∨
        (stopAudio st).currentAlarm = some none ∨
        (∃ alarm, (stopAudio st).currentAlarm = some (some alarm) ∧ alarm.id = none) ∨
        tokenPresent (stopAudio st).token = false := hskip
    have hsn : stopAlarmOnly env st = stopAudio st :=
      updateCurrentAlarmStatus_skipped env "snoozed" (stopAudio st) hskip'
    have htk : stopAlarmAndRedirect env st =
        { stopAudio st with location := "dashboard.html" } := by
      unfold stopAlarmAndRedirect
      rw [updateCurrentAlarmStatus_skipped env "taken" (stopAudio st) hskip']
    rw [hsn, htk]
    exact ⟨rfl, rfl, rfl, rfl, rfl, rfl, rfl, rfl⟩

/-- The alarm stored in the C2/C6 witness scenarios. -/
def c2Alarm : Alarm := { id := some 1, scheduled_time := "08:00", status := some "upcoming" }

/-- A ringing state holding `c2Alarm` with a valid session token. -/
def c2StoredState : AppState :=
  { token := some "tok", currentAlarm := some (some c2Alarm),
    location := "alarm.html", isAlarmPlaying := true,
    audioCtx := some CtxState.running, alarmIntervalVar := some 1,
    activeIntervals := {1}, scheduled := [], putCount := 0 }

/-- An environment whose `PUT /alarms/1 {status}` succeeds and returns
the updated record, per the API contract. -/
def c2SuccessEnv : Env :=
  { baseEnv with put := fun i ns =>
      if i = 1 then Except.ok { c2Alarm with status := some ns }
      else Except.error "not found" }

/-- Witness for C2 (amended): the success path at the concrete stored
alarm, and the skip path at the concrete empty state. -/
theorem c2_acknowledge_amended_witness :
    ((stopAlarmAndRedirect c2SuccessEnv c2StoredState).currentAlarm =
      some (some { c2Alarm with status := some "taken" }) ∧
     (stopAlarmAndRedirect c2SuccessEnv c2StoredState).location = "dashboard.html") ∧
    (stopAlarmOnly baseEnv c2EmptyState).putCount = c2EmptyState.putCount :=
  ⟨((c2_acknowledge_amended c2SuccessEnv c2StoredState).1 c2Alarm 1 rfl rfl rfl).1 rfl,
   ((c2_acknowledge_amended baseEnv c2EmptyState).2 (Or.inl rfl)).2.1⟩

/-- C6: when the status-update request fails, the error is swallowed —
the acknowledge operations return normally (they are total functions of
the state; the `catch` is part of `updateCurrentAlarmStatus`), the audio
stays stopped (every later scheduled beat sees the cleared flag), the
stored alarm is left as it was, exactly one request was issued (no
retry), and for "take" the navigation to the dashboard happens exactly
as in the success case. -/
theorem c6_update_failure_swallowed (env envOk : Env) (st : AppState)
    (alarm upd : Alarm) (i : Int) (e e2 : String)
    (hca : st.currentAlarm = some (some alarm)) (hid : alarm.id = some i)
    (htok : tokenPresent st.token = true)
    (hfail : env.put i "taken" = Except.error e)
    (hfailSn : env.put i "snoozed" = Except.error e2)
    (hok : envOk.put i "taken" = Except.ok upd) :
    (stopAlarmAndRedirect env st).isAlarmPlaying = false ∧
    (stopAlarmAndRedirect env st).currentAlarm = st.currentAlarm ∧
    (stopAlarmAndRedirect env st).putCount = st.putCount + 1 ∧
    (stopAlarmAndRedirect env st).location = "dashboard.html" ∧
    (stopAlarmAndRedirect env st).location = (stopAlarmAndRedirect envOk st).location ∧
    (stopAlarmAndRedirect env st).isAlarmPlaying =
      (stopAlarmAndRedirect envOk st).isAlarmPlaying ∧
    (stopAlarmAndRedirect env st).activeIntervals =
      (stopAlarmAndRedirect envOk st).activeIntervals ∧
    (stopAlarmAndRedirect env st).scheduled = (stopAlarmAndRedirect envOk st).scheduled ∧
    (stopAlarmOnly env st).currentAlarm = st.currentAlarm ∧
    (stopAlarmOnly env st).putCount = st.putCount + 1 ∧
    (stopAlarmOnly env st).location = st.location ∧
    (∀ ts, runCallbacks ts (stopAlarmAndRedirect env st) = stopAlarmAndRedirect env st ∧
      runCallbacks ts (stopAlarmOnly env st) = stopAlarmOnly env st) := by
  have hca' : (stopAudio st).currentAlarm = some (some alarm) := hca
  have htok' : tokenPresent (stopAudio st).token = true := htok
  have hfailEq : stopAlarmAndRedirect env st =
      { stopAudio st with location := "dashboard.html", putCount := st.putCount + 1 } := by
    unfold stopAlarmAndRedirect
    rw [updateCurrentAlarmStatus_fail env "taken" (stopAudio st) alarm i e hca' hid htok' hfail]
    rfl
  have hokEq : stopAlarmAndRedirect envOk st =
      { stopAudio st with
          currentAlarm := some (some upd)
          location := "dashboard.html"
          putCount := st.putCount + 1 } := by
    unfold stopAlarmAndRedirect
    rw [updateCurrentAlarmStatus_ok envOk "taken" (stopAudio st) alarm upd i hca' hid htok' hok]
    rfl
  have hsnEq : stopAlarmOnly env st = { stopAudio st with putCount := st.putCount + 1 } := by
    unfold stopAlarmOnly
    rw [updateCurrentAlarmStatus_fail env "snoozed" (stopAudio st) alarm i e2 hca' hid htok' hfailSn]
    rfl
  rw [hfailEq, hokEq, hsnEq]
  refine ⟨rfl, rfl, rfl, rfl, rfl, rfl, rfl, rfl, rfl, rfl, rfl, fun ts => ?_⟩
  exact ⟨runCallbacks_not_playing ts _ rfl, runCallbacks_not_playing ts _ rfl⟩

/-- An environment whose status-update requests always fail (backend
unreachable), against the stored-alarm state of the C2 witness. -/
theorem c6_update_failure_swallowed_witness :
    (stopAlarmAndRedirect baseEnv c2StoredState).currentAlarm =
      c2StoredState.currentAlarm ∧
    (stopAlarmAndRedirect baseEnv c2StoredState).putCount =
      c2StoredState.putCount + 1 ∧
    (stopAlarmAndRedirect baseEnv c2StoredState).location = "dashboard.html" :=
  ⟨(c6_update_failure_swallowed baseEnv c2SuccessEnv c2StoredState c2Alarm
      { c2Alarm with status := some "taken" } 1 "offline" "offline"
      rfl rfl rfl rfl rfl rfl).2.1,
   (c6_update_failure_swallowed baseEnv c2SuccessEnv c2StoredState c2Alarm
      { c2Alarm with status := some "taken" } 1 "offline" "offline"
      rfl rfl rfl rfl rfl rfl).2.2.1,
   (c6_update_failure_swallowed baseEnv c2SuccessEnv c2StoredState c2Alarm
      { c2Alarm with status := some "taken" } 1 "offline" "offline"
      rfl rfl rfl rfl rfl rfl).2.2.2.1⟩

/-! ## C1: the alarm poller -/

/-- One poll either leaves the state untouched or navigates to the alert
view with the first due alarm persisted. -/
theorem checkMedicationAlarms_cases (env : Env) (st : AppState) :
    checkMedicationAlarms env st = st ∨
    ∃ l a, tokenPresent st.token = true ∧ env.alarms = Except.ok (some l) ∧
      l.find? (isDueAlarm (currentHHMM env)) = some a ∧
      checkMedicationAlarms env st =
        { st with currentAlarm := some (some a), location := "alarm.html" } := by
  unfold checkMedicationAlarms
  split
  · exact Or.inl rfl
  · rename_i htok
    split
    · exact Or.inl rfl
    · exact Or.inl rfl
    · rename_i l halarms
      split
      · exact Or.inl rfl
      · rename_i a hfind
        refine Or.inr ⟨l, a, ?_, halarms, hfind, rfl⟩
        revert htok
        cases tokenPresent st.token <;> simp

/-- When the token is present, the fetch returns an array and a due
alarm is found, the poll persists that alarm and navigates. -/
theorem checkMedicationAlarms_fires (env : Env) (st : AppState)
    (l : List Alarm) (a : Alarm)
    (htok : tokenPresent st.token = true)
    (halarms : env.alarms = Except.ok (some l))
    (hfind : l.find? (isDueAlarm (currentHHMM env)) = some a) :
    checkMedicationAlarms env st =
      { st with currentAlarm := some (some a), location := "alarm.html" } := by
  unfold checkMedicationAlarms
  simp [htok, halarms, hfind]

/-- Once the page is the alert view, further polls keep it there (the
poller never leaves the ringing state). -/
theorem checkMedicationAlarms_ringing (env : Env) (st : AppState)
    (h : st.location = "alarm.html") :
    (checkMedicationAlarms env st).location = "alarm.html" := by
  rcases checkMedicationAlarms_cases env st with hc | ⟨l, a, _, _, _, hc⟩
  · rw [hc]; exact h
  · rw [hc]

/-- After a poll that fires, every later poll (same minute) still shows
the alert view. -/
theorem pollIter_ringing (env : Env) (st : AppState)
    (h1 : (checkMedicationAlarms env st).location = "alarm.html") :
    ∀ k, 1 ≤ k → (pollIter env st k).location = "alarm.html" := by
  intro k hk
  induction k with
  | zero => omega
  | succ m ih =>
    rcases Nat.eq_zero_or_pos m with hm | hm
    · subst hm; exact h1
    · exact checkMedicationAlarms_ringing env _ (ih hm)

/-- A poll that does not fire is the identity, so iterating it stays
put. -/
theorem pollIter_fixed (env : Env) (st : AppState)
    (h : checkMedicationAlarms env st = st) :
    ∀ k, pollIter env st k = st := by
  intro k
  induction k with
  | zero => rfl
  | succ m ih => show checkMedicationAlarms env (pollIter env st m) = st; rw [ih, h]

/-- Counting a predicate over `range n` that holds only at `0`. -/
theorem countP_range_one (p : Nat → Bool) (h0 : p 0 = true)
    (h : ∀ k, 1 ≤ k → p k = false) :
    ∀ n, 1 ≤ n → (List.range n).countP p = 1 := by
  intro n hn
  induction n with
  | zero => omega
  | succ m ih =>
    rcases Nat.eq_zero_or_pos m with hm | hm
    · subst hm; simp [List.range_succ, h0]
    · rw [List.range_succ, List.countP_append, ih hm]
      simp [List.countP_cons, h m hm]

/-- C1: starting from an idle page, a poll of the alarm list fires
(navigates to the alert view) precisely when a token is present, the
fetch returns an array, and some alarm's scheduled time equals the
current `"HH:MM"` minute with status absent/falsy or `"upcoming"`; on
firing, the first such alarm is persisted to the `currentAlarm` slot and
the page becomes the alert view; an alarm with status `"taken"` or
`"snoozed"` never satisfies the predicate; a poll that does not fire
changes nothing; and over any run of polls within the same minute the
idle-to-ringing transition happens exactly once when the condition
holds and never otherwise. -/
theorem c1_alarm_poll_transition (env : Env) (st : AppState)
    (hidle : st.location ≠ "alarm.html") :
    ((checkMedicationAlarms env st).location = "alarm.html" ↔
      (tokenPresent st.token = true ∧
        ∃ l, env.alarms = Except.ok (some l) ∧
          ∃ a ∈ l, isDueAlarm (currentHHMM env) a = true)) ∧
    (∀ l a, tokenPresent st.token = true → env.alarms = Except.ok (some l) →
      l.find? (isDueAlarm (currentHHMM env)) = some a →
      checkMedicationAlarms env st =
        { st with currentAlarm := some (some a), location := "alarm.html" }) ∧
    (∀ t a, a.status = some "taken" ∨ a.status = some "snoozed" →
      isDueAlarm t a = false) ∧
    ((checkMedicationAlarms env st).location ≠ "alarm.html" →
      checkMedicationAlarms env st = st) ∧
    (∀ n, 1 ≤ n →
      (List.range n).countP (fun k =>
        decide ((pollIter env st k).location ≠ "alarm.html" ∧
          (pollIter env st (k + 1)).location = "alarm.html")) =
      if (checkMedicationAlarms env st).location = "alarm.html" then 1 else 0) := by
  refine ⟨⟨?_, ?_⟩, ?_, ?_, ?_, ?_⟩
  · intro hfire
    rcases checkMedicationAlarms_cases env st with hc | ⟨l, a, htok, halarms, hfind, hc⟩
    · rw [hc] at hfire
      exact absurd hfire hidle
    · exact ⟨htok, l, halarms, a, List.mem_of_find?_eq_some hfind, List.find?_some hfind⟩
  · rintro ⟨htok, l, halarms, a, ha, hdue⟩
    have hsome : (l.find? (isDueAlarm (currentHHMM env))).isSome :=
      List.find?_isSome.mpr ⟨a, ha, hdue⟩
    obtain ⟨b, hb⟩ := Option.isSome_iff_exists.mp hsome
    rw [checkMedicationAlarms_fires env st l b htok halarms hb]
  · exact fun l a htok halarms hfind =>
      checkMedicationAlarms_fires env st l a htok halarms hfind
  · intro t a h
    rcases h with h | h <;> simp [isDueAlarm, statusFalsy, h]
  · intro hnofire
    rcases checkMedicationAlarms_cases env st with hc | ⟨l, a, _, _, _, hc⟩
    · exact hc
    · rw [hc] at hnofire
      simp at hnofire
  · intro n hn
    by_cases hf : (checkMedicationAlarms env st).location = "alarm.html"
    · rw [if_pos hf]
      refine countP_range_one _ ?_ ?_ n hn
      · rw [decide_eq_true_iff]
        exact ⟨hidle, hf⟩
      · intro k hk
        rw [decide_eq_false_iff_not]
        intro hpair
        exact hpair.1 (pollIter_ringing env st hf k hk)
    · rw [if_neg hf]
      have hfix : checkMedicationAlarms env st = st := by
        rcases checkMedicationAlarms_cases env st with hc | ⟨l, a, _, _, _, hc⟩
        · exact hc
        · rw [hc] at hf
          simp at hf
      rw [List.countP_eq_zero]
      intro k _
      simp [pollIter_fixed env st hfix, hidle]

/-- The due alarm of the C1 witness scenario. -/
def c1DueAlarm : Alarm := { id := some 2, scheduled_time := "08:00", status := some "upcoming" }

/-- An environment whose `/alarms` fetch returns exactly `c1DueAlarm`
at wall-clock 08:00. -/
def c1FireEnv : Env := { baseEnv with alarms := Except.ok (some [c1DueAlarm]) }

/-- An idle dashboard state with a session token. -/
def c1IdleState : AppState :=
  { token := some "tok", currentAlarm := none, location := "dashboard.html",
    isAlarmPlaying := false, audioCtx := none, alarmIntervalVar := none,
    activeIntervals := ∅, scheduled := [], putCount := 0 }

/-- Witness for C1: the concrete poll at 08:00 persists the due alarm
and navigates to the alert view. -/
theorem c1_alarm_poll_transition_witness :
    checkMedicationAlarms c1FireEnv c1IdleState =
      { c1IdleState with currentAlarm := some (some c1DueAlarm),
                         location := "alarm.html" } :=
  (c1_alarm_poll_transition c1FireEnv c1IdleState (by decide)).2.1
    [c1DueAlarm] c1DueAlarm rfl rfl (by decide)

/-! ## Calendar grid (`CalendarManager.renderCalendar`, script.js 457–518)

JS `Date` computations are embedded over the proleptic Gregorian
calendar (which `Date` implements): `new Date(y, m, 1).getDay()` is the
weekday of the first of the month, `new Date(y, m + 1, 0).getDate()` the
length of month `m`, and `new Date(y, m, 0).getDate()` the length of the
previous month (months are 0-based). -/

/-- Gregorian leap year, as JS `Date` implements it. -/
def isLeapYear (y : Int) : Bool :=
  Int.fmod y 4 = 0 && (Int.fmod y 100 ≠ 0 || Int.fmod y 400 = 0)

/-- Length of 0-based month `m` of year `y`
(`new Date(y, m + 1, 0).getDate()`). -/
def monthLen (y : Int) : Nat → Nat
  | 1 => if isLeapYear y then 29 else 28
  | 3 => 30
  | 5 => 30
  | 8 => 30
  | 10 => 30
  | _ => 31

/-- Days since the epoch 1970-01-01 of the civil date `y-m-d`
(`m` 1-based), the day count underlying a JS `Date`'s time value. -/
def daysFromCivil (y : Int) (m d : Int) : Int :=
  let y' := if m ≤ 2 then y - 1 else y
  let era := Int.fdiv y' 400
  let yoe := y' - era * 400
  let mp := Int.fmod (m + 9) 12
  let doy := Int.fdiv (153 * mp + 2) 5 + d - 1
  let doe := yoe * 365 + Int.fdiv yoe 4 - Int.fdiv yoe 100 + doy
  era * 146097 + doe - 719468

/-- `new Date(y, m, 1).getDay()`: weekday index of the first of 0-based
month `m`, Sunday = 0 (the epoch day 0 was a Thursday, index 4). -/
def firstDayOfWeek (y : Int) (m : Nat) : Nat :=
  (Int.fmod (daysFromCivil y ((m : Int) + 1) 1 + 4) 7).toNat

/-- `new Date(y, m + 1, 0).getDate()`. -/
def daysInMonth (y : Int) (m : Nat) : Nat := monthLen y m

/-- `new Date(y, m, 0).getDate()`: the length of the month before
0-based month `m` (December of `y - 1` when `m = 0`). -/
def daysInPrevMonth (y : Int) : Nat → Nat
  | 0 => 31
  | m + 1 => monthLen y m

/-- A cell of the 7-column grid: a leading previous-month padding cell
(class `cal-day other-month`) or a current-month day cell with its
active highlight and missed-dose dot. -/
inductive CalCell where
  | other : Nat → CalCell
  | day : Nat → Bool → Bool → CalCell
deriving DecidableEq, Repr

/-- The loop body of `renderCalendar`: `sel d` abstracts the
selected-date comparison (`d === selectedDate.getDate()` and the
month/year match) and `past d` abstracts `checkDate < today`; the
missed-dose dot is `past d && d % 5 = 0` (the demo rule). -/
def renderCalendar (sel past : Nat → Bool) (y : Int) (m : Nat) : List CalCell :=
  (List.range (firstDayOfWeek y m)).map
    (fun i => CalCell.other (daysInPrevMonth y m - firstDayOfWeek y m + 1 + i)) ++
  (List.range (daysInMonth y m)).map
    (fun i => CalCell.day (i + 1) (sel (i + 1)) (past (i + 1) && decide ((i + 1) % 5 = 0)))

/-- Every month is at least 28 days long. -/
theorem monthLen_ge (y : Int) (m : Nat) : 28 ≤ monthLen y m := by
  unfold monthLen
  split
  · split <;> omega
  all_goals omega

/-- The previous month is at least 28 days long. -/
theorem daysInPrevMonth_ge (y : Int) (m : Nat) : 28 ≤ daysInPrevMonth y m := by
  unfold daysInPrevMonth
  split
  · omega
  · exact monthLen_ge y _

/-- A weekday index is below 7. -/
theorem firstDayOfWeek_lt (y : Int) (m : Nat) : firstDayOfWeek y m < 7 := by
  unfold firstDayOfWeek
  have h1 : 0 ≤ Int.fmod (daysFromCivil y ((m : Int) + 1) 1 + 4) 7 :=
    Int.fmod_nonneg' _ (by omega)
  have h2 : Int.fmod (daysFromCivil y ((m : Int) + 1) 1 + 4) 7 < 7 :=
    Int.fmod_lt_of_pos _ (by omega)
  omega

/-- C8: for every year and 0-based month, the rendered grid is exactly
`firstDayOfWeek` previous-month padding cells — labelled with the
trailing day numbers of the previous month in ascending order, ending at
its last day — followed by exactly `daysInMonth` current-month day cells
labelled `1..daysInMonth`. -/
theorem c8_calendar_grid (sel past : Nat → Bool) (y : Int) (m : Nat) (_hm : m < 12) :
    renderCalendar sel past y m =
      (List.range' (daysInPrevMonth y m + 1 - firstDayOfWeek y m)
        (firstDayOfWeek y m)).map CalCell.other ++
      (List.range' 1 (daysInMonth y m)).map
        (fun d => CalCell.day d (sel d) (past d && decide (d % 5 = 0))) ∧
    ((List.range' (daysInPrevMonth y m + 1 - firstDayOfWeek y m)
        (firstDayOfWeek y m)).map CalCell.other).length = firstDayOfWeek y m ∧
    ((List.range' 1 (daysInMonth y m)).map
        (fun d => CalCell.day d (sel d) (past d && decide (d % 5 = 0)))).length =
      daysInMonth y m ∧
    (firstDayOfWeek y m ≠ 0 →
      (List.range' (daysInPrevMonth y m + 1 - firstDayOfWeek y m)
        (firstDayOfWeek y m)).getLast? = some (daysInPrevMonth y m)) := by
  have hfd := firstDayOfWeek_lt y m
  have hdpm := daysInPrevMonth_ge y m
  refine ⟨?_, by simp, by simp, ?_⟩
  · unfold renderCalendar
    rw [List.range'_eq_map_range, List.range'_eq_map_range, List.map_map, List.map_map]
    refine congrArg₂ (· ++ ·) ?_ ?_
    · refine List.map_congr_left fun i _ => ?_
      simp only [Function.comp_apply]
      congr 1
      omega
    · refine List.map_congr_left fun i _ => ?_
      simp only [Function.comp_apply]
      rw [Nat.add_comm 1 i]
  · intro h0
    obtain ⟨k, hk⟩ : ∃ k, firstDayOfWeek y m = k + 1 :=
      ⟨firstDayOfWeek y m - 1, by omega⟩
    rw [hk, List.range'_concat, List.getLast?_concat]
    congr 1
    omega

/-- Witness for C8 at January 2025 (its first day is a Wednesday, so the
grid starts with three padding cells labelled 29, 30, 31). -/
theorem c8_calendar_grid_witness :
    (List.range' (daysInPrevMonth 2025 0 + 1 - firstDayOfWeek 2025 0)
      (firstDayOfWeek 2025 0)).getLast? = some (daysInPrevMonth 2025 0) :=
  (c8_calendar_grid (fun _ => false) (fun _ => false) 2025 0 (by omega)).2.2.2
    (by decide)

/-! ## Renderers (`renderMedications` 181–225, `appendCaregiverCard`
238–274, `renderCaregivers` 277–289)

Each fetched record becomes a card inserted with
`container.insertBefore(card, container.firstChild)`; the container is
modelled as the list of its cards, top first. -/

/-- A medication record as fetched from `/medicines` (optional fields
model absent/`null`/falsy JSON values). -/
structure Medication where
  name : String
  dosage : String
  frequency : String
  time : Option (List Char)
  instructions : Option String
  active : Option Bool
  start_date : Option String
deriving DecidableEq

/-- The data shown on one medication card. -/
structure MedCard where
  name : String
  dosage : String
  frequency : String
  timeDisplay : List Char
  isActive : Bool
  instructionsText : String
  startDate : String
deriving DecidableEq

/-- The card built for one medication (script.js 190–218):
`med.time ? formatTime(med.time) : ''`, `isActive = med.active !== false`,
`med.instructions || 'No special instructions'`,
`med.start_date || ''`. -/
def medCardOf (med : Medication) : MedCard :=
  { name := med.name
    dosage := med.dosage
    frequency := med.frequency
    timeDisplay :=
      match med.time with
      | some t => if t = [] then [] else formatTime t
      | none => []
    isActive := med.active ≠ some false
    instructionsText :=
      match med.instructions with
      | some s => if s = "" then "No special instructions" else s
      | none => "No special instructions"
    startDate :=
      match med.start_date with
      | some s => s
      | none => "" }

/-- The `meds.forEach` loop of `renderMedications`: each card is
inserted before the container's current first child. -/
def renderMedications (meds : List Medication) (container : List MedCard) :
    List MedCard :=
  meds.foldl (fun acc med => medCardOf med :: acc) container

/-- A caregiver record as fetched from `/caregivers`. -/
structure Caregiver where
  name : String
  relation : Option String
  phone : Option String
  email : Option String
  is_primary : Option Bool
deriving DecidableEq

/-- The data shown on one caregiver card. -/
structure CgCard where
  name : String
  role : String
  hasStar : Bool
  phone : String
  email : String
deriving DecidableEq

/-- The card built for one caregiver (script.js 242–271):
`caregiver.relation || 'Caregiver'`, `caregiver.is_primary === true`,
`caregiver.phone || ''`, `caregiver.email || ''`. -/
def cgCardOf (cg : Caregiver) : CgCard :=
  { name := cg.name
    role :=
      match cg.relation with
      | some r => if r = "" then "Caregiver" else r
      | none => "Caregiver"
    hasStar := cg.is_primary = some true
    phone := cg.phone.getD ""
    email := cg.email.getD "" }

/-- `appendCaregiverCard` (script.js 238–274) given an existing
container: a falsy element is skipped, otherwise its card is inserted
before the first child. -/
def appendCaregiverCard (cg : Option Caregiver) (container : List CgCard) :
    List CgCard :=
  match cg with
  | none => container
  | some c => cgCardOf c :: container

/-- The `caregivers.forEach` loop of `renderCaregivers`. -/
def renderCaregivers (cgs : List (Option Caregiver)) (container : List CgCard) :
    List CgCard :=
  cgs.foldl (fun acc cg => appendCaregiverCard cg acc) container

/-- Folding cons-of-card over a list reverses it on top of the initial
container. -/
theorem foldl_prepend {α β : Type} (f : α → β) :
    ∀ (l : List α) (init : List β),
      l.foldl (fun acc x => f x :: acc) init = (l.map f).reverse ++ init := by
  intro l
  induction l with
  | nil => intro init; rfl
  | cons x xs ih =>
    intro init
    simp only [List.foldl_cons, List.map_cons, List.reverse_cons, List.append_assoc]
    rw [ih (f x :: init)]
    simp

/-- C10: rendering a fetched list of medication or caregiver records
prepends one card per record while iterating in list order, so the new
cards end up in reverse fetch order (the last record topmost) and any
pre-existing children keep their relative order below all new cards. -/
theorem c10_renderers_prepend_reverse :
    (∀ (meds : List Medication) (container : List MedCard),
      renderMedications meds container =
        (meds.map medCardOf).reverse ++ container) ∧
    (∀ (cgs : List Caregiver) (container : List CgCard),
      renderCaregivers (cgs.map some) container =
        (cgs.map cgCardOf).reverse ++ container) := by
  constructor
  · exact fun meds container => foldl_prepend medCardOf meds container
  · intro cgs container
    unfold renderCaregivers
    rw [List.foldl_map]
    exact foldl_prepend cgCardOf cgs container
